import Mathlib

/-!
A shallow embedding of the stream-multiplexing layer of the ams-sdk
repository (packages `shared` and `network`, files `shared/network.go`
and `pkg/ams/client/container.go`), together with theorems settling the
specification claims about it.

Modelling conventions:
* a byte is a `Nat`; a payload is a `List Nat`;
* a blocking reader is modelled by the finite sequence of results its
  successive `Read` calls return: each `ReadStep` carries the bytes
  delivered by one call and whether that call also reported an error
  (end-of-input or failure);
* a websocket send side is modelled by pairing each outgoing chunk with
  the outcome of the `NextWriter`/`Write` pair used to send it;
* a websocket receive side is modelled by the finite list of messages
  `NextReader` yields;
* every goroutine is modelled as a pure function from its inputs to the
  ordered list of externally visible events it performs.
-/

/-- Outcome of sending one chunk over the websocket: `NextWriter`
succeeded and `Write` succeeded, `NextWriter` failed, or `Write`
(after a successful `NextWriter`) failed. -/
inductive SendRes where
  | ok
  | nextWriterErr
  | writeErr
  deriving Repr, DecidableEq

/-- Outcome of one `w.Write(buf)` call on a local writer: full write
with no error, short write (`i != len(buf)`), or write error. -/
inductive WriteRes where
  | ok
  | short
  | werr
  deriving Repr, DecidableEq

/-- Externally visible actions of the pump goroutines. -/
inductive WsEvent where
  /-- a binary websocket message carrying `payload` was fully sent -/
  | sendBin (payload : List Nat)
  /-- a binary message frame was opened but its write errored -/
  | sendBinFail (payload : List Nat)
  /-- the zero-length text (barrier) message was sent -/
  | sendText
  /-- an explicit websocket close message was sent -/
  | sendClose
  /-- the pump fired its completion signal (`ch <- true` or `close(ch)`) -/
  | signalDone
  /-- the local read end was closed (`r.Close()`) -/
  | closeReader
  /-- the local write end was closed (`w.Close()`) -/
  | closeWriter
  /-- `payload` was fully written to the local writer -/
  | write (payload : List Nat)
  /-- a write to the local writer was short or errored -/
  | writeFail (payload : List Nat)
  deriving Repr, DecidableEq

/-- One `Read` call on the underlying reader: the bytes it returned
and whether it also returned a non-nil error. -/
structure ReadStep where
  data : List Nat
  isErr : Bool
  deriving Repr, DecidableEq

/-- `readSize` constant of `ReaderToChannel`: 128 KiB. -/
def readSize : Nat := 128 * 1024

namespace shared

/-- Effective buffer size of `shared.ReaderToChannel`: the Go code
replaces any `bufferSize <= 128*1024` (the argument is a signed int)
by `128*1024`. -/
def effBufferSize (bufferSize : Int) : Nat :=
  if bufferSize ≤ 128 * 1024 then 128 * 1024 else bufferSize.toNat

/-- Loop body of `shared.ReaderToChannel` (shared/network.go:361).
`acc` is the buffered but not yet emitted data (`buf[0:offset]`).
Per iteration the Go code reads into `buf[offset:offset+readSize]`,
adds `nr` to `offset`, emits `buf[0:offset]` when
`offset > 0 && (offset+readSize >= bufferSize || err != nil)`, and
closes the channel when `err != nil`.  The returned list is the
sequence of chunks sent on the channel; an input list that ends
without an error step models a reader that is still blocked, so no
further chunks are produced. -/
def rtcLoop (bufferSize : Nat) : List ReadStep → List Nat → List (List Nat)
  | [], _ => []
  | step :: rest, acc =>
    let acc2 := acc ++ step.data
    if 0 < acc2.length ∧ (bufferSize ≤ acc2.length + readSize ∨ step.isErr) then
      if step.isErr then [acc2]
      else acc2 :: rtcLoop bufferSize rest []
    else
      if step.isErr then []
      else rtcLoop bufferSize rest acc2

/-- `shared.ReaderToChannel` (shared/network.go:361-391): the sequence
of chunks delivered on the channel, for a reader whose successive
`Read` calls behave as `src` describes. -/
def ReaderToChannel (bufferSize : Int) (src : List ReadStep) : List (List Nat) :=
  rtcLoop (effBufferSize bufferSize) src []

end shared

namespace network

/-- Loop body of `network.ReaderToChannel` (the copy in the `network`
package, container.go concatenation lines 630-660).  This copy checks
`err != nil` immediately after `Read` and closes the channel at once,
before accounting the returned bytes: on error both the bytes of the
final read and the buffered `acc` are dropped. -/
def rtcLoop (bufferSize : Nat) : List ReadStep → List Nat → List (List Nat)
  | [], _ => []
  | step :: rest, acc =>
    if step.isErr then []
    else
      let acc2 := acc ++ step.data
      if 0 < acc2.length ∧ bufferSize ≤ acc2.length + readSize then
        acc2 :: rtcLoop bufferSize rest []
      else
        rtcLoop bufferSize rest acc2

/-- `network.ReaderToChannel`: chunk sequence delivered on the channel. -/
def ReaderToChannel (bufferSize : Int) (src : List ReadStep) : List (List Nat) :=
  rtcLoop (shared.effBufferSize bufferSize) src []

end network

/-- One message yielded by `conn.NextReader()` on the receive side:
a transport error, a close message, a text (barrier) message, or a
binary message.  A binary message carries its payload, whether
draining it with `ReadAll` errors, and the outcome of the `w.Write`
call that would forward it to the local writer. -/
inductive RecvMsg where
  | rerr
  | closeMsg
  | textMsg
  | binMsg (payload : List Nat) (readAllErr : Bool) (wres : WriteRes)
  deriving Repr, DecidableEq

namespace shared

/-- Goroutine body of `shared.WebsocketSendStream`
(shared/network.go:192-226), given a non-nil reader.  The input list
is the complete chunk sequence delivered by `ReaderToChannel`, each
chunk paired with the outcome of sending it; the channel is closed
after the last chunk.  On every exit of the loop the Go code executes
`conn.WriteMessage(websocket.TextMessage, []byte{})` and then
`ch <- true`. -/
def sendLoop : List (List Nat × SendRes) → List WsEvent
  | [] => [.sendText, .signalDone]
  | (buf, .ok) :: rest => .sendBin buf :: sendLoop rest
  | (_, .nextWriterErr) :: _ => [.sendText, .signalDone]
  | (buf, .writeErr) :: _ => [.sendBinFail buf, .sendText, .signalDone]

/-- `shared.WebsocketSendStream`: with a nil reader the function just
closes the completion channel (modelled as the one-event trace
`[.signalDone]`); otherwise the spawned goroutine behaves as
`sendLoop`. -/
def WebsocketSendStream (r : Option (List (List Nat × SendRes))) : List WsEvent :=
  match r with
  | none => [.signalDone]
  | some chunks => sendLoop chunks

/-- `shared.WebsocketRecvStream` goroutine (shared/network.go:229-278),
parameterised by whether the local writer `w` is non-nil.  A transport
error, close message or text (barrier) message breaks the loop; a
binary message is drained with `ReadAll` (an error there breaks), then
skipped when `w == nil` (`continue`), otherwise written; a short write
or write error breaks.  After the loop: `ch <- true`.  An input list
that ends without a stop condition models a connection on which
`NextReader` is still blocked, so no completion fires.  The copy in
the `network` package (container.go concatenation lines 499-547) only
differs by checking the transport error before the message type, which
coincides on this message model. -/
def WebsocketRecvStream (hasWriter : Bool) : List RecvMsg → List WsEvent
  | [] => []
  | .rerr :: _ => [.signalDone]
  | .closeMsg :: _ => [.signalDone]
  | .textMsg :: _ => [.signalDone]
  | .binMsg p rerr wres :: rest =>
    if rerr then [.signalDone]
    else if hasWriter then
      match wres with
      | .ok => .write p :: WebsocketRecvStream hasWriter rest
      | .short => [.writeFail p, .signalDone]
      | .werr => [.writeFail p, .signalDone]
    else WebsocketRecvStream hasWriter rest

/-- `defaultWriter` (shared/network.go:393-428): the write half of a
mirror.  Identical message classification to `WebsocketRecvStream`
except the writer is mandatory, and after the loop the goroutine runs
`writeDone <- true` and then `w.Close()`. -/
def defaultWriter : List RecvMsg → List WsEvent
  | [] => []
  | .rerr :: _ => [.signalDone, .closeWriter]
  | .closeMsg :: _ => [.signalDone, .closeWriter]
  | .textMsg :: _ => [.signalDone, .closeWriter]
  | .binMsg p rerr wres :: rest =>
    if rerr then [.signalDone, .closeWriter]
    else
      match wres with
      | .ok => .write p :: defaultWriter rest
      | .short => [.writeFail p, .signalDone, .closeWriter]
      | .werr => [.writeFail p, .signalDone, .closeWriter]

/-- Outbound (read) half of `shared.WebsocketConsoleMirror`
(shared/network.go:462-499; the copy in the `network` package,
container.go concatenation lines 731-768, is identical).  When the
chunk channel closes (local reader exhausted) the goroutine runs
`r.Close()`, sends the barrier text message, fires `readDone` and
returns.  When `NextWriter` or `Write` fails it breaks out of the
loop and then sends an explicit close message, fires `readDone`, and
closes the reader. -/
def consoleReadLoop : List (List Nat × SendRes) → List WsEvent
  | [] => [.closeReader, .sendText, .signalDone]
  | (buf, .ok) :: rest => .sendBin buf :: consoleReadLoop rest
  | (_, .nextWriterErr) :: _ => [.sendClose, .signalDone, .closeReader]
  | (buf, .writeErr) :: _ => [.sendBinFail buf, .sendClose, .signalDone, .closeReader]

/-- `shared.WebsocketConsoleMirror`: spawns `defaultWriter` on the
incoming messages and the console read loop on the outgoing chunk
sequence; returns the two goroutine traces (read half, write half). -/
def WebsocketConsoleMirror (chunks : List (List Nat × SendRes))
    (incoming : List RecvMsg) : List WsEvent × List WsEvent :=
  (consoleReadLoop chunks, defaultWriter incoming)

end shared

namespace network

/-- One iteration input of the `select` in
`network.WebsocketSendStreamWithContext` (container.go concatenation
lines 456-496): either the chunk channel delivered a chunk (paired
with the outcome of sending it) or the context was cancelled.  The
end of the list models the chunk channel being closed (`!ok`). -/
inductive SendStep where
  | chunk (buf : List Nat) (res : SendRes)
  | ctxDone
  deriving Repr, DecidableEq

/-- Goroutine body of `network.WebsocketSendStreamWithContext`, given a
non-nil reader.  A closed chunk channel, a context cancellation or a
`NextWriter` error set `active = false`; a `Write` error is only
logged and the loop continues.  After the loop the goroutine fires
`ch <- true` — it never sends a barrier text message. -/
def sendLoopCtx : List SendStep → List WsEvent
  | [] => [.signalDone]
  | .ctxDone :: _ => [.signalDone]
  | .chunk buf .ok :: rest => .sendBin buf :: sendLoopCtx rest
  | .chunk _ .nextWriterErr :: _ => [.signalDone]
  | .chunk buf .writeErr :: rest => .sendBinFail buf :: sendLoopCtx rest

/-- `network.WebsocketSendStreamWithContext`: nil reader closes the
completion channel immediately; otherwise the goroutine behaves as
`sendLoopCtx`. -/
def WebsocketSendStreamWithContext (r : Option (List SendStep)) : List WsEvent :=
  match r with
  | none => [.signalDone]
  | some steps => sendLoopCtx steps

/-- `network.WebsocketSendStream` delegates to
`WebsocketSendStreamWithContext` with the background (never
cancelled) context, so its step list contains no `ctxDone`. -/
def WebsocketSendStream (r : Option (List (List Nat × SendRes))) : List WsEvent :=
  WebsocketSendStreamWithContext (r.map (List.map fun p => SendStep.chunk p.1 p.2))

end network

/-- Websocket message types forwarded by the proxy. -/
inductive MsgType where
  | binary
  | text
  | close
  deriving Repr, DecidableEq

/-- One iteration input of a proxy forwarding loop: `in.NextReader()`
errored, or it yielded a message (type and payload) paired with the
outcome of forwarding it to the other connection (`out.NextWriter`
then `io.Copy`). -/
inductive ProxyStep where
  | rerr
  | msg (mt : MsgType) (payload : List Nat) (res : SendRes)
  deriving Repr, DecidableEq

/-- Events of the proxy goroutines. -/
inductive ProxEvent where
  /-- a message was forwarded whole, type and payload preserved -/
  | fwd (mt : MsgType) (payload : List Nat)
  /-- a frame of type `mt` was opened but `io.Copy` errored midway -/
  | fwdFail (mt : MsgType)
  /-- `source.Close()` -/
  | closeSource
  /-- `target.Close()` -/
  | closeTarget
  /-- a completion channel fired (`ch <- true`) -/
  | done
  deriving Repr, DecidableEq

namespace shared

/-- `forward` closure of `shared.WebsocketProxy`
(shared/network.go:281-324; the copy in the `network` package is
identical).  The loop breaks on an `in.NextReader` error, an
`out.NextWriter` error, or an `io.Copy` error; a successful iteration
forwards the message with its type and payload unchanged.  After the
loop: `ch <- true`.  An input list ending without a stop condition
models a connection on which `NextReader` is still blocked. -/
def forward : List ProxyStep → List ProxEvent
  | [] => []
  | .rerr :: _ => [.done]
  | .msg mt p .ok :: rest => .fwd mt p :: forward rest
  | .msg _ _ .nextWriterErr :: _ => [.done]
  | .msg mt _ .writeErr :: _ => [.fwdFail mt, .done]

/-- `shared.WebsocketProxy`: two forwarding goroutines (source→target
and target→source) plus the combining goroutine, which waits for
either direction's channel, closes the source connection, closes the
target connection, and fires the combined channel once. -/
def WebsocketProxy (a b : List ProxyStep) :
    List ProxEvent × List ProxEvent × List ProxEvent :=
  (forward a, forward b, [.closeSource, .closeTarget, .done])

end shared

/-!  Model of `clientImpl.ExecuteContainer`
(pkg/ams/client/container.go:162-291). -/

/-- Errors `ExecuteContainer` can return. -/
inductive ExecError where
  /-- `errs.NewInvalidArgument("id")` for an empty id -/
  | invalidArgument
  /-- the `HasExtension("container_exec")` lookup itself failed -/
  | extensionCheck
  /-- `errs.NewErrNotSupported(...)`: extension absent -/
  | notSupported
  /-- the POST `QueryOperation` failed -/
  | queryFailed
  /-- `getOperationWebsocket` failed for the named logical channel -/
  | openFailed (ch : String)
  deriving Repr, DecidableEq

/-- `ContainerExecArgs` (container.go:37-43), with each endpoint
reduced to its presence: whether `Stdin`/`Stdout`/`Stderr`/`Control`/
`DataDone` are non-nil. -/
structure ContainerExecArgs where
  stdin : Bool
  stdout : Bool
  stderr : Bool
  control : Bool
  dataDone : Bool
  deriving Repr, DecidableEq

/-- Environment of one `ExecuteContainer` call: the request data and
the behavior of the external collaborators (extension lookup,
operation query, per-channel websocket opening).  `fdControl`/`fd0`/
`fd1`/`fd2` are the endpoint tokens from the operation metadata, with
`""` meaning the channel is absent (exactly the `fds[...] != ""` tests
of the Go code); `openX` tells whether `getOperationWebsocket`
succeeds for that channel. -/
structure ExecEnv where
  id : String
  extensionCheckErr : Bool
  hasExecSupport : Bool
  queryOpErr : Bool
  interactive : Bool
  fdControl : String
  fd0 : String
  fd1 : String
  fd2 : String
  openControl : Bool
  open0 : Bool
  open1 : Bool
  open2 : Bool
  deriving Repr, DecidableEq

/-- Externally visible events of `ExecuteContainer` and of the
background goroutine it spawns. -/
inductive ExecEvent where
  /-- `getOperationWebsocket` succeeded for channel `ch` -/
  | openConn (ch : String)
  /-- `go args.Control(conn)` was dispatched -/
  | startControlHandler
  /-- a send-stream pump goroutine was started on channel `ch` -/
  | startSendPump (ch : String)
  /-- a recv-stream pump goroutine was started on channel `ch` -/
  | startRecvPump (ch : String)
  /-- the coordinator received from the send pump's completion channel -/
  | waitSend (ch : String)
  /-- the coordinator received from the recv pump's completion channel -/
  | waitRecv (ch : String)
  /-- `conn.Close()` on channel `ch`'s connection -/
  | closeConn (ch : String)
  /-- `args.Stdin.Close()` on a non-nil stdin -/
  | closeStdin
  /-- `args.Stdin.Close()` was invoked on a nil interface: runtime
  panic, the goroutine dies here -/
  | panicNilStdin
  /-- `close(args.DataDone)` -/
  | closeDataDone
  deriving Repr, DecidableEq

/-- Result of one `ExecuteContainer` call: `pre` is the ordered list
of events performed before the function returns, `err` the returned
error, `post` the trace of the background waiter goroutine (for the
interactive path, of the goroutine that runs the pumps and the
cleanup). -/
structure ExecResult where
  pre : List ExecEvent
  err : Option ExecError
  post : List ExecEvent
  deriving Repr, DecidableEq

namespace client

/-- One conditional channel open of `ExecuteContainer`: the Go
pattern `if <guard> { conn, err := c.getOperationWebsocket(opAPI.ID,
fds[name]); if err != nil { return nil, err }; <start pump(s)> }`.
Returns the events performed (connection opened, pump started) or
the open error. -/
def chanOpen (guard : Bool) (name : String) (ok : Bool)
    (pump : List ExecEvent) : Except ExecError (List ExecEvent) :=
  if guard then
    if ok then .ok (ExecEvent.openConn name :: pump)
    else .error (.openFailed name)
  else .ok []

/-- The `<-chDone` receives of the non-interactive waiter goroutine:
`for i, chDone := range dones`, skipping stdin (`i == 0`); the map
iteration order is modelled as channel 1 then channel 2. -/
def niWaits (env : ExecEnv) : List ExecEvent :=
  (if env.fd1 != "" then [ExecEvent.waitRecv "1"] else []) ++
  (if env.fd2 != "" then [ExecEvent.waitRecv "2"] else [])

/-- The `conn.Close()` calls of the non-interactive waiter goroutine:
one per connection accumulated in `conns`, in open order. -/
def niCloses (env : ExecEnv) : List ExecEvent :=
  (if env.fd0 != "" then [ExecEvent.closeConn "0"] else []) ++
  (if env.fd1 != "" then [ExecEvent.closeConn "1"] else []) ++
  (if env.fd2 != "" then [ExecEvent.closeConn "2"] else [])

/-- Trace of the non-interactive waiter goroutine (container.go:266-286):
wait for each non-stdin pump; then, when `fds["0"] != ""`, call
`args.Stdin.Close()` — which panics and kills the goroutine when the
caller's `Stdin` is nil — then close every opened connection and
finally `close(args.DataDone)` when present. -/
def niPost (env : ExecEnv) (a : ContainerExecArgs) : List ExecEvent :=
  if env.fd0 != "" then
    if a.stdin then
      niWaits env ++ [ExecEvent.closeStdin] ++ niCloses env ++
        (if a.dataDone then [ExecEvent.closeDataDone] else [])
    else niWaits env ++ [ExecEvent.panicNilStdin]
  else
    niWaits env ++ niCloses env ++
      (if a.dataDone then [ExecEvent.closeDataDone] else [])

/-- Body of `ExecuteContainer` after validation, when `args != nil`
(container.go:184-288): the control channel (handler dispatched on
its own goroutine when both the handler and the `control` fd are
present); then the interactive or non-interactive data path.  The
interactive goroutine starts the send pump **without receiving from
its completion channel** (the Go code discards the channel returned
by `network.WebsocketSendStream`), waits for the recv pump, closes
the channel-0 connection and closes `DataDone`.  The non-interactive
path opens and pumps channels 0 (send pump started only when `Stdin`
is non-nil), 1 and 2, in order, returning immediately on an open
failure (closing nothing); its waiter goroutine is `niPost`. -/
def execData (env : ExecEnv) (a : ContainerExecArgs) : ExecResult :=
  match chanOpen (a.control && (env.fdControl != "")) "control"
      env.openControl [.startControlHandler] with
  | .error e => ⟨[], some e, []⟩
  | .ok pre0 =>
    if env.interactive then
      if a.stdin && a.stdout then
        if env.open0 then
          ⟨pre0 ++ [.openConn "0"], none,
           [.startSendPump "0", .startRecvPump "0", .waitRecv "0",
            .closeConn "0"] ++
             (if a.dataDone then [.closeDataDone] else [])⟩
        else ⟨pre0, some (.openFailed "0"), []⟩
      else
        ⟨pre0 ++ (if a.dataDone then [.closeDataDone] else []), none, []⟩
    else
      match chanOpen (env.fd0 != "") "0" env.open0
          (if a.stdin then [.startSendPump "0"] else []) with
      | .error e => ⟨pre0, some e, []⟩
      | .ok e0 =>
        match chanOpen (env.fd1 != "") "1" env.open1
            [.startRecvPump "1"] with
        | .error e => ⟨pre0 ++ e0, some e, []⟩
        | .ok e1 =>
          match chanOpen (env.fd2 != "") "2" env.open2
              [.startRecvPump "2"] with
          | .error e => ⟨pre0 ++ e0 ++ e1, some e, []⟩
          | .ok e2 => ⟨pre0 ++ e0 ++ e1 ++ e2, none, niPost env a⟩

/-- `clientImpl.ExecuteContainer` (container.go:162-291).  Faithful
control-flow model: argument validation, the extension check and the
operation query first; with a nil `args` the call returns right after
the query; otherwise the data channels are handled by `execData`. -/
def ExecuteContainer (env : ExecEnv) (args : Option ContainerExecArgs) :
    ExecResult :=
  if env.id = "" then ⟨[], some .invalidArgument, []⟩
  else if env.extensionCheckErr then ⟨[], some .extensionCheck, []⟩
  else if ¬ env.hasExecSupport then ⟨[], some .notSupported, []⟩
  else if env.queryOpErr then ⟨[], some .queryFailed, []⟩
  else
    match args with
    | none => ⟨[], none, []⟩
    | some a => execData env a

end client

/-- Number of connection-close events in a trace. -/
def closeCount (tr : List ExecEvent) : Nat :=
  tr.countP fun e => match e with | .closeConn _ => true | _ => false

/-- Number of opened connections recorded in a trace. -/
def openCount (tr : List ExecEvent) : Nat :=
  tr.countP fun e => match e with | .openConn _ => true | _ => false

/-- Number of barrier (zero-length text) messages sent in a trace. -/
def textMsgCount (tr : List WsEvent) : Nat :=
  tr.countP fun e => match e with | .sendText => true | _ => false

/-- Number of explicit websocket close messages sent in a trace. -/
def closeMsgCount (tr : List WsEvent) : Nat :=
  tr.countP fun e => match e with | .sendClose => true | _ => false

/-- Number of completion-signal firings in a pump trace. -/
def doneCount (tr : List WsEvent) : Nat :=
  tr.countP fun e => match e with | .signalDone => true | _ => false

/-- Number of completion-signal firings in a proxy trace. -/
def proxDoneCount (tr : List ProxEvent) : Nat :=
  tr.countP fun e => match e with | .done => true | _ => false

/-- Forwarded (message type, payload) pairs of a proxy trace. -/
def forwardedMsgs (tr : List ProxEvent) : List (MsgType × List Nat) :=
  tr.filterMap fun e => match e with | .fwd mt p => some (mt, p) | _ => none

/-- Steps whose receive did not report a transport error. -/
def notRecvErr : ProxyStep → Bool :=
  fun s => match s with | .rerr => false | _ => true

/-- The messages received on a connection before its first transport
error. -/
def receivedMsgs (a : List ProxyStep) : List (MsgType × List Nat) :=
  (a.takeWhile notRecvErr).filterMap
    fun s => match s with | .msg mt p _ => some (mt, p) | .rerr => none

/-- A step whose forwarding to the other connection succeeded (or a
receive error, which forwards nothing). -/
def outOk : ProxyStep → Bool :=
  fun s =>
    match s with
    | .msg _ _ SendRes.ok => true
    | .msg _ _ _ => false
    | .rerr => true

/-! ### Chunked Reader Adapter: exactness of `shared.ReaderToChannel` -/

/-- Invariant of the `shared.ReaderToChannel` loop: for a read trace
consisting of successful reads `s` followed by one final read `d`
that also reports an error, the emitted chunks concatenate to the
buffered data plus every byte delivered by the reads. -/
theorem shared.rtcLoop_join (bufferSize : Nat) (s : List (List Nat)) :
    ∀ (acc d : List Nat),
      (shared.rtcLoop bufferSize
        (s.map (fun x => ⟨x, false⟩) ++ [⟨d, true⟩]) acc).flatten =
      acc ++ s.flatten ++ d := by
  induction s with
  | nil =>
    intro acc d
    simp only [List.map_nil, List.nil_append, shared.rtcLoop]
    split_ifs <;> simp_all
  | cons x s ih =>
    intro acc d
    simp only [List.map_cons, List.cons_append, shared.rtcLoop]
    split_ifs <;> simp_all [List.append_assoc]

/-- Every chunk emitted by the `shared.ReaderToChannel` loop is
nonempty, whatever the read trace. -/
theorem shared.rtcLoop_nonempty (bufferSize : Nat) (steps : List ReadStep) :
    ∀ (acc : List Nat), ∀ c ∈ shared.rtcLoop bufferSize steps acc, c ≠ [] := by
  induction steps with
  | nil => intro acc c hc; simp [shared.rtcLoop] at hc
  | cons st rest ih =>
    intro acc c hc
    simp only [shared.rtcLoop] at hc
    by_cases h : 0 < (acc ++ st.data).length ∧
        (bufferSize ≤ (acc ++ st.data).length + readSize ∨ st.isErr = true)
    · rw [if_pos h] at hc
      by_cases he : st.isErr = true
      · rw [if_pos he] at hc
        simp at hc
        subst hc
        exact List.ne_nil_of_length_pos h.1
      · rw [if_neg he] at hc
        rcases List.mem_cons.mp hc with h1 | h1
        · subst h1; exact List.ne_nil_of_length_pos h.1
        · exact ih [] c h1
    · rw [if_neg h] at hc
      by_cases he : st.isErr = true
      · rw [if_pos he] at hc; simp at hc
      · rw [if_neg he] at hc; exact ih _ c hc

/-- Every chunk emitted by the `shared.ReaderToChannel` loop except
the last satisfies `bufferSize ≤ length + readSize`: only the final
chunk (flushed by the read error) can be further from the buffer
capacity than one read. -/
theorem shared.rtcLoop_bound (bufferSize : Nat) (steps : List ReadStep) :
    ∀ (acc : List Nat) (i : Nat),
      i + 1 < (shared.rtcLoop bufferSize steps acc).length →
      bufferSize ≤
        ((shared.rtcLoop bufferSize steps acc).getD i []).length + readSize := by
  induction steps with
  | nil => intro acc i hi; simp [shared.rtcLoop] at hi
  | cons st rest ih =>
    intro acc i hi
    simp only [shared.rtcLoop] at hi ⊢
    by_cases h : 0 < (acc ++ st.data).length ∧
        (bufferSize ≤ (acc ++ st.data).length + readSize ∨ st.isErr = true)
    · rw [if_pos h] at hi ⊢
      by_cases he : st.isErr = true
      · rw [if_pos he] at hi; simp at hi
      · rw [if_neg he] at hi ⊢
        have hcond : bufferSize ≤ (acc ++ st.data).length + readSize := by
          rcases h.2 with h2 | h2
          · exact h2
          · exact absurd h2 (by simp [he])
        match i with
        | 0 => simpa using hcond
        | j + 1 =>
          simp only [List.getD_cons_succ]
          exact ih [] j (by simpa using Nat.lt_of_succ_lt_succ hi)
    · rw [if_neg h] at hi ⊢
      by_cases he : st.isErr = true
      · rw [if_pos he] at hi; simp at hi
      · rw [if_neg he] at hi ⊢; exact ih _ i hi

/-- C2 counterexample: with the default floor (bufferSize `-1`, so the
effective floor is 128 KiB = 131072), two 1-byte reads followed by
end-of-input make `shared.ReaderToChannel` emit two 1-byte chunks,
the first of which is not the last chunk yet is far below the
effective floor — refuting the claim that every chunk but the last
has size at least the effective floor. -/
theorem readerToChannelFloorCex :
    shared.ReaderToChannel (-1) [⟨[7], false⟩, ⟨[8], false⟩, ⟨[], true⟩] =
      [[7], [8]] ∧
    shared.effBufferSize (-1) = 131072 ∧
    ¬ (shared.effBufferSize (-1) ≤ ([7] : List Nat).length) := by decide

/-- C2 (amended): for every requested floor and every source read
trace (successful reads `s` followed by a final read `d` that reports
end-of-input or an error), `shared.ReaderToChannel` emits chunks whose
concatenation is exactly the bytes read from the source, every chunk
is nonempty, and every chunk except the last is within one `readSize`
(128 KiB) of the effective buffer size — rather than at least the
effective floor; a final partial chunk is emitted at end-of-input or
error whenever data is buffered. -/
theorem readerToChannelExactConcat (bufferSize : Int) (s : List (List Nat))
    (d : List Nat) :
    (shared.ReaderToChannel bufferSize
        (s.map (fun x => ⟨x, false⟩) ++ [⟨d, true⟩])).flatten =
      s.flatten ++ d ∧
    (∀ c ∈ shared.ReaderToChannel bufferSize
        (s.map (fun x => ⟨x, false⟩) ++ [⟨d, true⟩]), c ≠ []) ∧
    (∀ i : Nat, i + 1 < (shared.ReaderToChannel bufferSize
        (s.map (fun x => ⟨x, false⟩) ++ [⟨d, true⟩])).length →
      shared.effBufferSize bufferSize ≤
        ((shared.ReaderToChannel bufferSize
          (s.map (fun x => ⟨x, false⟩) ++ [⟨d, true⟩])).getD i []).length +
          readSize) := by
  refine ⟨?_, ?_, ?_⟩
  · simpa using shared.rtcLoop_join (shared.effBufferSize bufferSize) s [] d
  · exact shared.rtcLoop_nonempty (shared.effBufferSize bufferSize) _ []
  · exact shared.rtcLoop_bound (shared.effBufferSize bufferSize) _ []

/-! ### Outbound pump: barrier behavior -/

/-- On every exit path of the `shared.WebsocketSendStream` goroutine
(reader exhausted, `NextWriter` failure, `Write` failure) exactly one
barrier text message is sent, exactly one completion fires, and the
trace ends with the barrier followed by the completion. -/
theorem shared.sendLoop_barrier (chunks : List (List Nat × SendRes)) :
    textMsgCount (shared.sendLoop chunks) = 1 ∧
    doneCount (shared.sendLoop chunks) = 1 ∧
    ∃ l, shared.sendLoop chunks = l ++ [WsEvent.sendText, WsEvent.signalDone] := by
  induction chunks with
  | nil => exact ⟨rfl, rfl, [], rfl⟩
  | cons c rest ih =>
    obtain ⟨buf, res⟩ := c
    obtain ⟨h1, h2, l, hl⟩ := ih
    cases res with
    | ok =>
      refine ⟨?_, ?_, ⟨.sendBin buf :: l, by simp [shared.sendLoop, hl]⟩⟩
      · simpa [shared.sendLoop, textMsgCount, List.countP_cons] using h1
      · simpa [shared.sendLoop, doneCount, List.countP_cons] using h2
    | nextWriterErr => exact ⟨rfl, rfl, ⟨[], rfl⟩⟩
    | writeErr => exact ⟨rfl, rfl, ⟨[.sendBinFail buf], rfl⟩⟩

/-- C3 counterexample: the `network` package's outbound pump
(`WebsocketSendStreamWithContext`, which `network.WebsocketSendStream`
delegates to, and which the interactive exec path uses) sends **no**
barrier text message on normal termination: with one chunk sent
successfully and the chunk sequence then ending, the trace is just
the binary send followed by the completion signal. -/
theorem sendStreamNoBarrierCex :
    network.WebsocketSendStream (some [([3], SendRes.ok)]) =
      [WsEvent.sendBin [3], WsEvent.signalDone] ∧
    textMsgCount (network.WebsocketSendStream (some [([3], SendRes.ok)])) = 0 := by
  decide

/-- C3 (amended): the `shared` package's outbound pump
(`shared.WebsocketSendStream`, shared/network.go:192-226) with a
non-nil reader sends exactly one zero-length text (barrier) message
on every exit path, immediately before firing its single completion
signal; the `network` package's copy used by the interactive exec
path sends none. -/
theorem sendStreamBarrierExactlyOnce (chunks : List (List Nat × SendRes)) :
    textMsgCount (shared.WebsocketSendStream (some chunks)) = 1 ∧
    doneCount (shared.WebsocketSendStream (some chunks)) = 1 ∧
    ∃ l, shared.WebsocketSendStream (some chunks) =
      l ++ [WsEvent.sendText, WsEvent.signalDone] :=
  shared.sendLoop_barrier chunks

/-! ### Inbound pump: message classification and completion -/

/-- C6: the inbound pump stops on a transport error, a close message
or a text (barrier) message; a binary message whose payload drains
successfully is written verbatim to a present local writer and the
loop continues, is silently dropped (loop continues) when the writer
is nil, and stops the pump on a short write or write error; a payload
drain error also stops the pump. -/
theorem recvStreamClassification :
    (∀ (w : Bool) (rest : List RecvMsg),
      shared.WebsocketRecvStream w (RecvMsg.rerr :: rest) = [WsEvent.signalDone]) ∧
    (∀ (w : Bool) (rest : List RecvMsg),
      shared.WebsocketRecvStream w (RecvMsg.closeMsg :: rest) = [WsEvent.signalDone]) ∧
    (∀ (w : Bool) (rest : List RecvMsg),
      shared.WebsocketRecvStream w (RecvMsg.textMsg :: rest) = [WsEvent.signalDone]) ∧
    (∀ (p : List Nat) (rest : List RecvMsg),
      shared.WebsocketRecvStream true (RecvMsg.binMsg p false .ok :: rest) =
        WsEvent.write p :: shared.WebsocketRecvStream true rest) ∧
    (∀ (p : List Nat) (wres : WriteRes) (rest : List RecvMsg),
      shared.WebsocketRecvStream false (RecvMsg.binMsg p false wres :: rest) =
        shared.WebsocketRecvStream false rest) ∧
    (∀ (p : List Nat) (rest : List RecvMsg),
      shared.WebsocketRecvStream true (RecvMsg.binMsg p false .short :: rest) =
        [WsEvent.writeFail p, WsEvent.signalDone]) ∧
    (∀ (p : List Nat) (rest : List RecvMsg),
      shared.WebsocketRecvStream true (RecvMsg.binMsg p false .werr :: rest) =
        [WsEvent.writeFail p, WsEvent.signalDone]) ∧
    (∀ (w : Bool) (p : List Nat) (wres : WriteRes) (rest : List RecvMsg),
      shared.WebsocketRecvStream w (RecvMsg.binMsg p true wres :: rest) =
        [WsEvent.signalDone]) :=
  ⟨fun _ _ => rfl, fun _ _ => rfl, fun _ _ => rfl, fun _ _ => rfl,
   fun _ _ _ => rfl, fun _ _ => rfl, fun _ _ => rfl, fun _ _ _ _ => rfl⟩

/-- The completion of the network send pump fires exactly once on
every exit path of its select loop. -/
theorem network.sendLoopCtxDone (steps : List network.SendStep) :
    doneCount (network.sendLoopCtx steps) = 1 := by
  induction steps with
  | nil => rfl
  | cons st rest ih =>
    cases st with
    | ctxDone => rfl
    | chunk buf res =>
      cases res with
      | ok => simpa [network.sendLoopCtx, doneCount, List.countP_cons] using ih
      | nextWriterErr => rfl
      | writeErr =>
        simpa [network.sendLoopCtx, doneCount, List.countP_cons] using ih

/-- The completion of the console-mirror read half fires exactly once
on every exit path. -/
theorem shared.consoleReadLoopDone (chunks : List (List Nat × SendRes)) :
    doneCount (shared.consoleReadLoop chunks) = 1 := by
  induction chunks with
  | nil => rfl
  | cons c rest ih =>
    obtain ⟨buf, res⟩ := c
    cases res with
    | ok =>
      simpa [shared.consoleReadLoop, doneCount, List.countP_cons] using ih
    | nextWriterErr => rfl
    | writeErr => rfl

/-- The inbound pump never fires its completion more than once. -/
theorem shared.recvDoneLe (w : Bool) :
    ∀ msgs, doneCount (shared.WebsocketRecvStream w msgs) ≤ 1 := by
  intro msgs
  induction msgs with
  | nil => simp [shared.WebsocketRecvStream, doneCount]
  | cons m rest ih =>
    cases m with
    | rerr => simp [shared.WebsocketRecvStream, doneCount]
    | closeMsg => simp [shared.WebsocketRecvStream, doneCount]
    | textMsg => simp [shared.WebsocketRecvStream, doneCount]
    | binMsg p rerr wres =>
      cases rerr with
      | true => simp [shared.WebsocketRecvStream, doneCount]
      | false =>
        cases w with
        | false => simpa [shared.WebsocketRecvStream] using ih
        | true =>
          cases wres with
          | ok =>
            simpa [shared.WebsocketRecvStream, doneCount, List.countP_cons]
              using ih
          | short => simp [shared.WebsocketRecvStream, doneCount]
          | werr => simp [shared.WebsocketRecvStream, doneCount]

/-- When the connection eventually reports a transport error (as a
closed connection does), the inbound pump's completion fires exactly
once. -/
theorem shared.recvDoneOfErr (w : Bool) :
    ∀ msgs, RecvMsg.rerr ∈ msgs →
      doneCount (shared.WebsocketRecvStream w msgs) = 1 := by
  intro msgs
  induction msgs with
  | nil => intro h; simp at h
  | cons m rest ih =>
    intro h
    cases m with
    | rerr => simp [shared.WebsocketRecvStream, doneCount]
    | closeMsg => simp [shared.WebsocketRecvStream, doneCount]
    | textMsg => simp [shared.WebsocketRecvStream, doneCount]
    | binMsg p rerr wres =>
      have hrest : RecvMsg.rerr ∈ rest := by
        rcases List.mem_cons.mp h with h1 | h1
        · exact absurd h1 (by simp)
        · exact h1
      cases rerr with
      | true => simp [shared.WebsocketRecvStream, doneCount]
      | false =>
        cases w with
        | false => simpa [shared.WebsocketRecvStream] using ih hrest
        | true =>
          cases wres with
          | ok =>
            simpa [shared.WebsocketRecvStream, doneCount, List.countP_cons]
              using ih hrest
          | short => simp [shared.WebsocketRecvStream, doneCount]
          | werr => simp [shared.WebsocketRecvStream, doneCount]

/-- C7: every pump fires its completion signal exactly once per
possible exit path — the outbound pumps (shared, context-aware
network variant, console-mirror read half) on all inputs, and the
inbound pump never more than once on any input and exactly once as
soon as the message sequence reaches a transport error (a closed or
failed connection), so a waiter is never blocked forever. -/
theorem pumpSignalsExactlyOnce :
    (∀ r, doneCount (shared.WebsocketSendStream r) = 1) ∧
    (∀ r, doneCount (network.WebsocketSendStreamWithContext r) = 1) ∧
    (∀ chunks, doneCount (shared.consoleReadLoop chunks) = 1) ∧
    (∀ (w : Bool) msgs, doneCount (shared.WebsocketRecvStream w msgs) ≤ 1) ∧
    (∀ (w : Bool) msgs, RecvMsg.rerr ∈ msgs →
      doneCount (shared.WebsocketRecvStream w msgs) = 1) := by
  refine ⟨?_, ?_, shared.consoleReadLoopDone, shared.recvDoneLe,
    shared.recvDoneOfErr⟩
  · intro r
    cases r with
    | none => rfl
    | some chunks => exact (shared.sendLoop_barrier chunks).2.1
  · intro r
    cases r with
    | none => rfl
    | some steps => exact network.sendLoopCtxDone steps

/-- Witness for C7 at concrete inputs. -/
theorem pumpSignalsExactlyOnce_witness :
    doneCount (shared.WebsocketSendStream (some [([3], SendRes.ok)])) = 1 ∧
    doneCount (shared.WebsocketRecvStream true [RecvMsg.rerr]) = 1 :=
  ⟨pumpSignalsExactlyOnce.1 (some [([3], SendRes.ok)]),
   pumpSignalsExactlyOnce.2.2.2.2 true [RecvMsg.rerr] (by decide)⟩

/-! ### Console mirror: end-of-stream behavior of the outbound half -/

/-- Console-mirror read half on an all-successful chunk sequence ended
by local EOF: sends every chunk, closes the reader, sends the barrier,
fires completion — and nothing else. -/
theorem shared.consoleReadLoop_ok (bufs : List (List Nat)) :
    shared.consoleReadLoop (bufs.map fun b => (b, SendRes.ok)) =
      bufs.map WsEvent.sendBin ++
        [WsEvent.closeReader, WsEvent.sendText, WsEvent.signalDone] := by
  induction bufs with
  | nil => rfl
  | cons b rest ih => simp [shared.consoleReadLoop, ih]

/-- Console-mirror read half when `NextWriter` fails after successful
chunks: exits via the close-message path (close message, completion,
reader close) and sends no barrier. -/
theorem shared.consoleReadLoop_writerFailure (pr : List (List Nat))
    (buf : List Nat) :
    shared.consoleReadLoop
        (pr.map (fun b => (b, SendRes.ok)) ++ [(buf, SendRes.nextWriterErr)]) =
      pr.map WsEvent.sendBin ++
        [WsEvent.sendClose, WsEvent.signalDone, WsEvent.closeReader] := by
  induction pr with
  | nil => rfl
  | cons b rest ih => simp [shared.consoleReadLoop, ih]

/-- Binary sends contribute nothing to the close-message count. -/
theorem closeMsgCount_sendBins (bufs : List (List Nat)) (tr : List WsEvent) :
    closeMsgCount (bufs.map WsEvent.sendBin ++ tr) = closeMsgCount tr := by
  induction bufs with
  | nil => rfl
  | cons b rest ih => simp [closeMsgCount, List.countP_cons, ih]

/-- C5 counterexample: a console-mirror session whose local reader
delivers one chunk and then reaches EOF sends the barrier but **no**
explicit close message before firing its completion signal. -/
theorem consoleMirrorNoCloseOnEOFCex :
    (shared.WebsocketConsoleMirror [([9], SendRes.ok)] []).1 =
      [WsEvent.sendBin [9], WsEvent.closeReader, WsEvent.sendText,
       WsEvent.signalDone] ∧
    closeMsgCount ((shared.WebsocketConsoleMirror [([9], SendRes.ok)] []).1) =
      0 := by decide

/-- C5 (amended): in `WebsocketConsoleMirror`, on local EOF the
outbound half closes the reader, sends the zero-length text barrier
and fires its completion signal — it sends **no** explicit close
message on that path; the explicit close message is sent instead on
the write-failure exit path, where no barrier is sent. -/
theorem consoleMirrorBarrierOnEOF (bufs : List (List Nat))
    (msgs : List RecvMsg) :
    (shared.WebsocketConsoleMirror (bufs.map fun b => (b, SendRes.ok)) msgs).1 =
      bufs.map WsEvent.sendBin ++
        [WsEvent.closeReader, WsEvent.sendText, WsEvent.signalDone] ∧
    closeMsgCount
      ((shared.WebsocketConsoleMirror (bufs.map fun b => (b, SendRes.ok))
        msgs).1) = 0 ∧
    (∀ (pr : List (List Nat)) (buf : List Nat),
      shared.consoleReadLoop
          (pr.map (fun b => (b, SendRes.ok)) ++
            [(buf, SendRes.nextWriterErr)]) =
        pr.map WsEvent.sendBin ++
          [WsEvent.sendClose, WsEvent.signalDone, WsEvent.closeReader]) := by
  refine ⟨shared.consoleReadLoop_ok bufs, ?_, shared.consoleReadLoop_writerFailure⟩
  show closeMsgCount (shared.consoleReadLoop (bufs.map fun b => (b, SendRes.ok))) = 0
  rw [shared.consoleReadLoop_ok, closeMsgCount_sendBins]
  rfl

/-! ### Passive proxy -/

theorem forwardedMsgs_cons_fwd (mt : MsgType) (p : List Nat)
    (tr : List ProxEvent) :
    forwardedMsgs (ProxEvent.fwd mt p :: tr) = (mt, p) :: forwardedMsgs tr := by
  simp [forwardedMsgs]

theorem receivedMsgs_cons_msg (mt : MsgType) (p : List Nat) (res : SendRes)
    (rest : List ProxyStep) :
    receivedMsgs (ProxyStep.msg mt p res :: rest) =
      (mt, p) :: receivedMsgs rest := by
  simp [receivedMsgs, notRecvErr, List.takeWhile_cons]

/-- Each proxy forwarding loop forwards, verbatim and in order, every
message received before the connection's first transport error — as
long as the outgoing connection accepts the forwards. -/
theorem shared.forward_verbatim :
    ∀ (a : List ProxyStep), (∀ s ∈ a, outOk s = true) →
      forwardedMsgs (shared.forward a) = receivedMsgs a := by
  intro a
  induction a with
  | nil => intro _; rfl
  | cons st rest ih =>
    intro h
    cases st with
    | rerr => rfl
    | msg mt p res =>
      have hres : outOk (ProxyStep.msg mt p res) = true :=
        h _ (List.mem_cons_self _ _)
      cases res with
      | ok =>
        have hrest := fun s hs => h s (List.mem_cons_of_mem _ hs)
        rw [show shared.forward (ProxyStep.msg mt p SendRes.ok :: rest) =
              ProxEvent.fwd mt p :: shared.forward rest from rfl,
            forwardedMsgs_cons_fwd, receivedMsgs_cons_msg]
        exact congrArg _ (ih hrest)
      | nextWriterErr => exact absurd hres (by simp [outOk])
      | writeErr => exact absurd hres (by simp [outOk])

/-- C8: every message received on either proxied connection before a
transport error is forwarded to the other connection with type and
payload preserved (given the outgoing connection accepts the
forwards), and the combining goroutine closes both connections and
fires the single combined completion signal exactly once. -/
theorem proxyForwardsVerbatim (a b : List ProxyStep)
    (ha : ∀ s ∈ a, outOk s = true) (hb : ∀ s ∈ b, outOk s = true) :
    forwardedMsgs (shared.WebsocketProxy a b).1 = receivedMsgs a ∧
    forwardedMsgs (shared.WebsocketProxy a b).2.1 = receivedMsgs b ∧
    (shared.WebsocketProxy a b).2.2 =
      [ProxEvent.closeSource, ProxEvent.closeTarget, ProxEvent.done] ∧
    proxDoneCount (shared.WebsocketProxy a b).2.2 = 1 :=
  ⟨shared.forward_verbatim a ha, shared.forward_verbatim b hb, rfl, rfl⟩

/-- Witness for C8: three binary messages one way, two the other,
each connection then erroring. -/
theorem proxyForwardsVerbatim_witness :
    forwardedMsgs (shared.WebsocketProxy
        [ProxyStep.msg .binary [1] .ok, ProxyStep.msg .binary [2] .ok,
         ProxyStep.msg .binary [3] .ok, ProxyStep.rerr]
        [ProxyStep.msg .binary [4] .ok, ProxyStep.msg .binary [5] .ok,
         ProxyStep.rerr]).1 =
      receivedMsgs
        [ProxyStep.msg .binary [1] .ok, ProxyStep.msg .binary [2] .ok,
         ProxyStep.msg .binary [3] .ok, ProxyStep.rerr] ∧
    forwardedMsgs (shared.WebsocketProxy
        [ProxyStep.msg .binary [1] .ok, ProxyStep.msg .binary [2] .ok,
         ProxyStep.msg .binary [3] .ok, ProxyStep.rerr]
        [ProxyStep.msg .binary [4] .ok, ProxyStep.msg .binary [5] .ok,
         ProxyStep.rerr]).2.1 =
      receivedMsgs
        [ProxyStep.msg .binary [4] .ok, ProxyStep.msg .binary [5] .ok,
         ProxyStep.rerr] ∧
    (shared.WebsocketProxy
        [ProxyStep.msg .binary [1] .ok, ProxyStep.msg .binary [2] .ok,
         ProxyStep.msg .binary [3] .ok, ProxyStep.rerr]
        [ProxyStep.msg .binary [4] .ok, ProxyStep.msg .binary [5] .ok,
         ProxyStep.rerr]).2.2 =
      [ProxEvent.closeSource, ProxEvent.closeTarget, ProxEvent.done] ∧
    proxDoneCount (shared.WebsocketProxy
        [ProxyStep.msg .binary [1] .ok, ProxyStep.msg .binary [2] .ok,
         ProxyStep.msg .binary [3] .ok, ProxyStep.rerr]
        [ProxyStep.msg .binary [4] .ok, ProxyStep.msg .binary [5] .ok,
         ProxyStep.rerr]).2.2 = 1 :=
  proxyForwardsVerbatim _ _ (by decide) (by decide)

/-- A forwarding loop whose connection eventually reports a transport
error (as a closed connection does) terminates: its trace ends with
its completion signal, fired exactly once. -/
theorem shared.forwardEndsDone :
    ∀ a, ProxyStep.rerr ∈ a →
      (∃ l, shared.forward a = l ++ [ProxEvent.done]) ∧
      proxDoneCount (shared.forward a) = 1 := by
  intro a
  induction a with
  | nil => intro h; simp at h
  | cons st rest ih =>
    intro h
    cases st with
    | rerr => exact ⟨⟨[], rfl⟩, rfl⟩
    | msg mt p res =>
      have hrest : ProxyStep.rerr ∈ rest := by
        rcases List.mem_cons.mp h with h1 | h1
        · exact absurd h1 (by simp)
        · exact h1
      cases res with
      | ok =>
        obtain ⟨⟨l, hl⟩, hc⟩ := ih hrest
        refine ⟨⟨ProxEvent.fwd mt p :: l, by simp [shared.forward, hl]⟩, ?_⟩
        simpa [shared.forward, proxDoneCount, List.countP_cons] using hc
      | nextWriterErr => exact ⟨⟨[], rfl⟩, rfl⟩
      | writeErr => exact ⟨⟨[ProxEvent.fwdFail mt], rfl⟩, rfl⟩

/-- C9: once both connections are closed — so each direction's message
supply ends in a transport error — both forwarding tasks terminate,
each firing its completion exactly once with the completion as its
final action, and the combined completion signal fires exactly once. -/
theorem proxyTasksTerminate (a b : List ProxyStep)
    (ha : ProxyStep.rerr ∈ a) (hb : ProxyStep.rerr ∈ b) :
    (shared.forward a).getLast? = some ProxEvent.done ∧
    (shared.forward b).getLast? = some ProxEvent.done ∧
    proxDoneCount (shared.forward a) = 1 ∧
    proxDoneCount (shared.forward b) = 1 ∧
    proxDoneCount (shared.WebsocketProxy a b).2.2 = 1 := by
  obtain ⟨⟨la, hla⟩, hca⟩ := shared.forwardEndsDone a ha
  obtain ⟨⟨lb, hlb⟩, hcb⟩ := shared.forwardEndsDone b hb
  refine ⟨?_, ?_, hca, hcb, rfl⟩
  · rw [hla]; exact List.getLast?_concat _
  · rw [hlb]; exact List.getLast?_concat _

/-- Witness for C9. -/
theorem proxyTasksTerminate_witness :
    (shared.forward [ProxyStep.msg .binary [1] .ok, ProxyStep.rerr]).getLast? =
      some ProxEvent.done ∧
    (shared.forward [ProxyStep.rerr]).getLast? = some ProxEvent.done ∧
    proxDoneCount (shared.forward [ProxyStep.msg .binary [1] .ok,
      ProxyStep.rerr]) = 1 ∧
    proxDoneCount (shared.forward [ProxyStep.rerr]) = 1 ∧
    proxDoneCount (shared.WebsocketProxy
      [ProxyStep.msg .binary [1] .ok, ProxyStep.rerr]
      [ProxyStep.rerr]).2.2 = 1 :=
  proxyTasksTerminate _ _ (by decide) (by decide)

/-! ### Exec session coordinator -/

/-- Shape of the events a successful conditional channel open
performs. -/
theorem client.chanOpen_ok_shape {g : Bool} {n : String} {ok : Bool}
    {pump evs : List ExecEvent}
    (h : client.chanOpen g n ok pump = .ok evs) :
    evs = [] ∨ evs = ExecEvent.openConn n :: pump := by
  unfold client.chanOpen at h
  split_ifs at h <;> cases h <;> simp

theorem closeCount_append (x y : List ExecEvent) :
    closeCount (x ++ y) = closeCount x + closeCount y :=
  List.countP_append _ _ _

/-- A successful channel open performs no connection close. -/
theorem client.chanOpen_ok_closeCount {g : Bool} {n : String} {ok : Bool}
    {pump evs : List ExecEvent}
    (h : client.chanOpen g n ok pump = .ok evs)
    (hp : closeCount pump = 0) : closeCount evs = 0 := by
  rcases client.chanOpen_ok_shape h with h1 | h1 <;> subst h1
  · rfl
  · simpa [closeCount, List.countP_cons] using hp

theorem closeCount_stdinPump (c : Bool) :
    closeCount (if c then [ExecEvent.startSendPump "0"] else []) = 0 := by
  cases c <;> rfl

/-- When its guard implies the open succeeds, a conditional channel
open returns its events. -/
theorem client.chanOpen_ok_of (g : Bool) (n : String) (ok : Bool)
    (pump : List ExecEvent) (hok : g = true → ok = true) :
    client.chanOpen g n ok pump =
      .ok (if g then ExecEvent.openConn n :: pump else []) := by
  unfold client.chanOpen
  split_ifs with hg ho
  · rfl
  · exact absurd (hok hg) ho
  · rfl

/-- C1 counterexample: non-interactive session with a control handler,
stdout (`fds["1"]`) and stderr (`fds["2"]`) channels, where opening
stderr's connection fails after `control` and `1` opened: the call
returns the open error with **two** connections opened, **zero**
connections closed, the stdout pump already started, and no cleanup
goroutine — contradicting the claim that every already-opened
connection is closed before returning and that no pump is started. -/
theorem execOpenFailureLeakCex :
    (client.ExecuteContainer
        ⟨"c1", false, true, false, false, "tkc", "", "t1", "t2",
          true, true, true, false⟩
        (some ⟨false, true, true, true, true⟩)).err =
      some (.openFailed "2") ∧
    openCount (client.ExecuteContainer
        ⟨"c1", false, true, false, false, "tkc", "", "t1", "t2",
          true, true, true, false⟩
        (some ⟨false, true, true, true, true⟩)).pre = 2 ∧
    closeCount (client.ExecuteContainer
        ⟨"c1", false, true, false, false, "tkc", "", "t1", "t2",
          true, true, true, false⟩
        (some ⟨false, true, true, true, true⟩)).pre = 0 ∧
    ExecEvent.startRecvPump "1" ∈ (client.ExecuteContainer
        ⟨"c1", false, true, false, false, "tkc", "", "t1", "t2",
          true, true, true, false⟩
        (some ⟨false, true, true, true, true⟩)).pre ∧
    (client.ExecuteContainer
        ⟨"c1", false, true, false, false, "tkc", "", "t1", "t2",
          true, true, true, false⟩
        (some ⟨false, true, true, true, true⟩)).post = [] := by decide

/-- Whenever the data path of `ExecuteContainer` returns an error, it
has closed nothing and started no waiter goroutine. -/
theorem client.execData_err (env : ExecEnv) (a : ContainerExecArgs) :
    (client.execData env a).err.isSome →
      closeCount (client.execData env a).pre = 0 ∧
      (client.execData env a).post = [] := by
  unfold client.execData
  split
  · intro _; exact ⟨rfl, rfl⟩
  · next pre0 heq0 =>
    split
    · split
      · split
        · intro h; simp at h
        · intro _; exact ⟨client.chanOpen_ok_closeCount heq0 rfl, rfl⟩
      · intro h; simp at h
    · split
      · intro _; exact ⟨client.chanOpen_ok_closeCount heq0 rfl, rfl⟩
      · next e0 heq1 =>
        split
        · intro _
          refine ⟨?_, rfl⟩
          rw [closeCount_append, client.chanOpen_ok_closeCount heq0 rfl,
            client.chanOpen_ok_closeCount heq1 (closeCount_stdinPump a.stdin)]
        · next e1 heq2 =>
          split
          · intro _
            refine ⟨?_, rfl⟩
            rw [closeCount_append, closeCount_append,
              client.chanOpen_ok_closeCount heq0 rfl,
              client.chanOpen_ok_closeCount heq1 (closeCount_stdinPump a.stdin),
              client.chanOpen_ok_closeCount heq2 rfl]
          · intro h; simp at h

/-- C1 (amended): when `ExecuteContainer` returns an error — in
particular when opening the multiplexed connection of some channel
fails after other channels' connections were opened — it returns
immediately: **no** already-opened connection is closed and the
cleanup/waiter goroutine is never started (connections opened and
pumps started for earlier channels are simply left behind). -/
theorem execOpenFailureClosesNothing (env : ExecEnv)
    (args : Option ContainerExecArgs)
    (h : (client.ExecuteContainer env args).err.isSome) :
    closeCount (client.ExecuteContainer env args).pre = 0 ∧
    (client.ExecuteContainer env args).post = [] := by
  revert h
  unfold client.ExecuteContainer
  split_ifs <;> try (intro _; exact ⟨rfl, rfl⟩)
  split
  · intro h; simp at h
  · next a => exact client.execData_err env a

/-- Witness for C1 (amended) at the counterexample's input. -/
theorem execOpenFailureClosesNothing_witness :
    closeCount (client.ExecuteContainer
        ⟨"c1", false, true, false, false, "tkc", "", "t1", "t2",
          true, true, true, false⟩
        (some ⟨false, true, true, true, true⟩)).pre = 0 ∧
    (client.ExecuteContainer
        ⟨"c1", false, true, false, false, "tkc", "", "t1", "t2",
          true, true, true, false⟩
        (some ⟨false, true, true, true, true⟩)).post = [] :=
  execOpenFailureClosesNothing _ _ (by decide)

/-- C4 counterexample: in a successful interactive session with local
stdin and stdout, the coordinator goroutine's trace contains **no**
receive from the outbound pump's completion channel (the Go code
discards the channel returned by `network.WebsocketSendStream`): it
starts the send pump, waits only for the inbound pump, then closes
the connection. -/
theorem interactiveNoOutboundWaitCex :
    (client.ExecuteContainer
        ⟨"c1", false, true, false, true, "", "t0", "", "",
          true, true, true, true⟩
        (some ⟨true, true, false, false, true⟩)).err = none ∧
    (client.ExecuteContainer
        ⟨"c1", false, true, false, true, "", "t0", "", "",
          true, true, true, true⟩
        (some ⟨true, true, false, false, true⟩)).post =
      [.startSendPump "0", .startRecvPump "0", .waitRecv "0",
       .closeConn "0", .closeDataDone] ∧
    ExecEvent.startSendPump "0" ∈ (client.ExecuteContainer
        ⟨"c1", false, true, false, true, "", "t0", "", "",
          true, true, true, true⟩
        (some ⟨true, true, false, false, true⟩)).post ∧
    ExecEvent.waitSend "0" ∉ (client.ExecuteContainer
        ⟨"c1", false, true, false, true, "", "t0", "", "",
          true, true, true, true⟩
        (some ⟨true, true, false, false, true⟩)).post := by decide

/-- C4 (amended): for every successful interactive exec session with
local stdin and stdout present, the coordinator starts the outbound
pump **without waiting for its completion signal**, waits for the
inbound pump's completion signal, and only then closes the channel-0
connection (finally closing `DataDone` when present). -/
theorem interactiveWaitsOnlyInbound (env : ExecEnv) (a : ContainerExecArgs)
    (h1 : env.id ≠ "") (h2 : env.extensionCheckErr = false)
    (h3 : env.hasExecSupport = true) (h4 : env.queryOpErr = false)
    (h5 : env.interactive = true) (h6 : a.stdin = true) (h7 : a.stdout = true)
    (h8 : env.open0 = true)
    (h9 : (a.control && (env.fdControl != "")) = true →
      env.openControl = true) :
    (client.ExecuteContainer env (some a)).err = none ∧
    (client.ExecuteContainer env (some a)).post =
      [.startSendPump "0", .startRecvPump "0", .waitRecv "0", .closeConn "0"]
        ++ (if a.dataDone then [ExecEvent.closeDataDone] else []) := by
  have hred : client.ExecuteContainer env (some a) = client.execData env a := by
    unfold client.ExecuteContainer
    rw [if_neg h1, if_neg (by simp [h2]), if_neg (by simp [h3]),
      if_neg (by simp [h4])]
  rw [hred]
  simp only [client.execData,
    client.chanOpen_ok_of (a.control && (env.fdControl != "")) "control"
      env.openControl [ExecEvent.startControlHandler] h9, h5, h6, h7, h8]
  simp

/-- Witness for C4 (amended) at a concrete interactive session. -/
theorem interactiveWaitsOnlyInbound_witness :
    (client.ExecuteContainer
        ⟨"c2", false, true, false, true, "", "t0", "", "",
          true, true, true, true⟩
        (some ⟨true, true, false, false, false⟩)).err = none ∧
    (client.ExecuteContainer
        ⟨"c2", false, true, false, true, "", "t0", "", "",
          true, true, true, true⟩
        (some ⟨true, true, false, false, false⟩)).post =
      [.startSendPump "0", .startRecvPump "0", .waitRecv "0", .closeConn "0"]
        ++ (if (false : Bool) then [ExecEvent.closeDataDone] else []) :=
  interactiveWaitsOnlyInbound _ _ (by decide) (by decide) (by decide)
    (by decide) (by decide) (by decide) (by decide) (by decide) (by decide)

theorem client.niWaits_closeCount (env : ExecEnv) :
    closeCount (client.niWaits env) = 0 := by
  unfold client.niWaits
  split_ifs <;> rfl

theorem client.niWaits_noDataDone (env : ExecEnv) :
    ExecEvent.closeDataDone ∉ client.niWaits env := by
  unfold client.niWaits
  split_ifs <;> simp

/-- C10: in a non-interactive exec session whose metadata includes a
stdin channel (`fds["0"]` non-empty) but whose caller supplied a nil
`Stdin`, the call itself succeeds, yet the cleanup goroutine — after
waiting for the inbound pumps — invokes `Close` on the nil stdin
interface and panics: the panic is the goroutine's final event, so no
connection is ever closed and `DataDone` is never closed. -/
theorem nilStdinCleanupPanics (env : ExecEnv) (a : ContainerExecArgs)
    (h1 : env.id ≠ "") (h2 : env.extensionCheckErr = false)
    (h3 : env.hasExecSupport = true) (h4 : env.queryOpErr = false)
    (h5 : env.interactive = false) (h6 : (env.fd0 != "") = true)
    (h7 : a.stdin = false) (h8 : env.open0 = true)
    (h9 : (env.fd1 != "") = true → env.open1 = true)
    (h10 : (env.fd2 != "") = true → env.open2 = true)
    (h11 : (a.control && (env.fdControl != "")) = true →
      env.openControl = true) :
    (client.ExecuteContainer env (some a)).err = none ∧
    (client.ExecuteContainer env (some a)).post =
      client.niWaits env ++ [ExecEvent.panicNilStdin] ∧
    (client.ExecuteContainer env (some a)).post.getLast? =
      some ExecEvent.panicNilStdin ∧
    ExecEvent.closeDataDone ∉ (client.ExecuteContainer env (some a)).post ∧
    closeCount (client.ExecuteContainer env (some a)).post = 0 := by
  have hred : client.ExecuteContainer env (some a) = client.execData env a := by
    unfold client.ExecuteContainer
    rw [if_neg h1, if_neg (by simp [h2]), if_neg (by simp [h3]),
      if_neg (by simp [h4])]
  have hmain : (client.ExecuteContainer env (some a)).err = none ∧
      (client.ExecuteContainer env (some a)).post =
        client.niWaits env ++ [ExecEvent.panicNilStdin] := by
    rw [hred]
    simp only [client.execData,
      client.chanOpen_ok_of (a.control && (env.fdControl != "")) "control"
        env.openControl [ExecEvent.startControlHandler] h11,
      client.chanOpen_ok_of (env.fd0 != "") "0" env.open0
        (if a.stdin then [ExecEvent.startSendPump "0"] else [])
        (fun _ => h8),
      client.chanOpen_ok_of (env.fd1 != "") "1" env.open1
        [ExecEvent.startRecvPump "1"] h9,
      client.chanOpen_ok_of (env.fd2 != "") "2" env.open2
        [ExecEvent.startRecvPump "2"] h10, h5]
    simp [client.niPost, h6, h7]
  refine ⟨hmain.1, hmain.2, ?_, ?_, ?_⟩
  · rw [hmain.2]; exact List.getLast?_concat _
  · rw [hmain.2]
    simp [client.niWaits_noDataDone env, List.mem_append]
  · rw [hmain.2, closeCount_append, client.niWaits_closeCount]; rfl

/-- Witness for C10 at a concrete session: stdin channel present in
the metadata, nil local stdin, one stdout channel. -/
theorem nilStdinCleanupPanics_witness :
    (client.ExecuteContainer
        ⟨"c3", false, true, false, false, "", "t0", "t1", "",
          true, true, true, true⟩
        (some ⟨false, true, false, false, true⟩)).err = none ∧
    (client.ExecuteContainer
        ⟨"c3", false, true, false, false, "", "t0", "t1", "",
          true, true, true, true⟩
        (some ⟨false, true, false, false, true⟩)).post =
      client.niWaits
        ⟨"c3", false, true, false, false, "", "t0", "t1", "",
          true, true, true, true⟩ ++ [ExecEvent.panicNilStdin] ∧
    (client.ExecuteContainer
        ⟨"c3", false, true, false, false, "", "t0", "t1", "",
          true, true, true, true⟩
        (some ⟨false, true, false, false, true⟩)).post.getLast? =
      some ExecEvent.panicNilStdin ∧
    ExecEvent.closeDataDone ∉ (client.ExecuteContainer
        ⟨"c3", false, true, false, false, "", "t0", "t1", "",
          true, true, true, true⟩
        (some ⟨false, true, false, false, true⟩)).post ∧
    closeCount (client.ExecuteContainer
        ⟨"c3", false, true, false, false, "", "t0", "t1", "",
          true, true, true, true⟩
        (some ⟨false, true, false, false, true⟩)).post = 0 :=
  nilStdinCleanupPanics _ _ (by decide) (by decide) (by decide) (by decide)
    (by decide) (by decide) (by decide) (by decide) (by decide) (by decide)
    (by decide)
